import Mathlib

/-!
Shallow embedding of `RemoteDBusConnection` / `RemoteDBusConnectionTunnel`
(remotedbusconnection.cpp, QtExtra module).

The tunnel object lives in a dedicated I/O thread; its slots mutate member
state and emit signals.  We embed each slot as a pure function
`TunnelState → TunnelState × List TunnelEvent` (signals become events in
emission order).  Qt socket behaviour that the code depends on is modelled
explicitly:

* `remote_socket` (a `QTcpSocket`) is represented by its `state()` plus an
  oracle bit `remote_pending_writes` telling whether `disconnectFromHost`
  can complete immediately (no unflushed data ⇒ immediate disconnect, the
  `disconnected` signal runs its same-thread slot synchronously; unflushed
  data ⇒ the socket enters `ClosingState`).
* `local_server` (a `QTcpServer`) is represented by its listening flag plus
  an oracle bit `os_bind_ok` for whether the OS would let `listen()` bind;
  `listen()` also fails when the server is already listening.
* `local_socket` (the accepted relay peer, `QTcpSocket*`) is represented by
  a flag saying whether it is non-null.
* the two `QTimer`s are represented by their active flags.
* `QSemaphore wrapped_operation_semaphore` is represented by its counter;
  a blocking `acquire()` on a zero counter is represented by a dedicated
  "blocked" result constructor carrying the state at the blocking point.
-/

namespace QtExtra

/-- Embeds `QAbstractSocket::SocketState`. -/
inductive SocketState where
  | UnconnectedState
  | HostLookupState
  | ConnectingState
  | ConnectedState
  | BoundState
  | ClosingState
  | ListeningState
deriving DecidableEq, Repr

/-- Signals of `RemoteDBusConnectionTunnel`, in emission order.
`channelOpened` has a default argument `local_port = 0`. -/
inductive TunnelEvent where
  | channelOpened (success : Bool) (local_port : Nat)
  | channelError (message : String)
  | channelClosed (success : Bool)
deriving DecidableEq, Repr

/-- Member state of `RemoteDBusConnectionTunnel` plus the socket/server/timer
oracle bits described in the file comment. -/
structure TunnelState where
  connection_timeout_ms : Int
  wrapped_operation_timeout_ms : Int
  wrapped_operation_semaphore : Nat
  wrapped_operation_timed_out : Bool
  remote_socket_state : SocketState
  remote_pending_writes : Bool
  remote_error_string : String
  local_socket : Bool
  local_server_listening : Bool
  local_server_port : Nat
  connection_timer_active : Bool
  wrapped_operation_timer_active : Bool
  os_bind_ok : Bool
deriving DecidableEq, Repr

/-- Embeds `startConnectionTimer()`: arms the single-shot connection timer unless the
configured timeout is the disabled sentinel `-1`. -/
def startConnectionTimer (s : TunnelState) : TunnelState :=
  if s.connection_timeout_ms ≠ -1 then { s with connection_timer_active := true } else s

/-- Embeds `stopLocalServer()`: closes the listener if listening and aborts/destroys
the accepted relay peer if present. -/
def stopLocalServer (s : TunnelState) : TunnelState :=
  { s with local_server_listening := false, local_socket := false }

/-- Embeds `startLocalServer()`: `local_server.listen(LocalHost)` —
fails when already listening or when the OS refuses the bind; on success the
server (re)starts accepting. -/
def startLocalServer (s : TunnelState) : TunnelState × Bool :=
  if !s.local_server_listening && s.os_bind_ok then
    ({ s with local_server_listening := true }, true)
  else
    (s, false)

/-- Embeds `processRemoteSocketDisconnected()`: stop the connection timer, tear down
the listener and relay peer, emit `channelClosed(true)`. -/
def processRemoteSocketDisconnected (s : TunnelState) :
    TunnelState × List TunnelEvent :=
  let s1 := { s with connection_timer_active := false }
  (stopLocalServer s1, [TunnelEvent.channelClosed true])

/-- Embeds `remote_socket.disconnectFromHost()`: no-op when already unconnected;
enters `ClosingState` while unflushed data remains; otherwise disconnects at
once, in which case the `disconnected` signal fires (returned flag). -/
def socketDisconnectFromHost (s : TunnelState) : TunnelState × Bool :=
  if s.remote_socket_state = SocketState.UnconnectedState then (s, false)
  else if s.remote_pending_writes then
    ({ s with remote_socket_state := SocketState.ClosingState }, false)
  else
    ({ s with remote_socket_state := SocketState.UnconnectedState }, true)

/-- Embeds `disconnectRemoteSocket(graceful)`: stops the connection timer; graceful
path calls `disconnectFromHost` (whose synchronous `disconnected` signal runs
`processRemoteSocketDisconnected` at once) and re-arms the timer while the
socket is still not unconnected; non-graceful path calls `abort()` with
signals blocked. -/
def disconnectRemoteSocket (s : TunnelState) (graceful : Bool) :
    TunnelState × List TunnelEvent :=
  let s0 := { s with connection_timer_active := false }
  if graceful then
    let p := socketDisconnectFromHost s0
    let q := if p.2 then processRemoteSocketDisconnected p.1 else (p.1, [])
    if q.1.remote_socket_state ≠ SocketState.UnconnectedState then
      (startConnectionTimer q.1, q.2)
    else
      q
  else
    ({ s0 with remote_socket_state := SocketState.UnconnectedState,
               remote_pending_writes := false }, [])

/-- Embeds `remote_socket.connectToHost(...)`: only acts from `UnconnectedState`,
where it starts the host lookup. -/
def socketConnectToHost (s : TunnelState) : TunnelState :=
  if s.remote_socket_state = SocketState.UnconnectedState then
    { s with remote_socket_state := SocketState.HostLookupState }
  else s

/-- Embeds `openChannel(...)` exactly as written: emits `channelOpened(false)` when
the remote socket is not unconnected but does NOT return; emits the internal
error and `channelOpened(false)` when the local server fails to start but
does NOT return; then unconditionally dials the remote host and arms the
connection timer while not connected. -/
def openChannel (s : TunnelState) : TunnelState × List TunnelEvent :=
  let evs1 : List TunnelEvent :=
    if s.remote_socket_state ≠ SocketState.UnconnectedState then
      [TunnelEvent.channelOpened false 0]
    else []
  let p := startLocalServer s
  let evs2 : List TunnelEvent :=
    if p.2 then []
    else [TunnelEvent.channelError "Internal error: failed to start local server",
          TunnelEvent.channelOpened false 0]
  let s3 := socketConnectToHost p.1
  let s4 := if s3.remote_socket_state ≠ SocketState.ConnectedState then
              startConnectionTimer s3
            else s3
  (s4, evs1 ++ evs2)

/-- Embeds `closeChannel()`: switch on `remote_socket.state()`. -/
def closeChannel (s : TunnelState) : TunnelState × List TunnelEvent :=
  match s.remote_socket_state with
  | SocketState.UnconnectedState => (s, [TunnelEvent.channelClosed false])
  | SocketState.HostLookupState | SocketState.ConnectingState =>
      let p := disconnectRemoteSocket s false
      (stopLocalServer p.1, p.2 ++ [TunnelEvent.channelClosed true])
  | SocketState.ConnectedState => disconnectRemoteSocket s true
  | SocketState.ClosingState => (s, [])
  | SocketState.BoundState | SocketState.ListeningState => (s, [])

/-- Embeds `abortChannel()`: switch on `remote_socket.state()`; unconnected and
closing are fall-through no-ops. -/
def abortChannel (s : TunnelState) : TunnelState × List TunnelEvent :=
  match s.remote_socket_state with
  | SocketState.UnconnectedState | SocketState.ClosingState => (s, [])
  | SocketState.HostLookupState | SocketState.ConnectingState
  | SocketState.ConnectedState =>
      let p := disconnectRemoteSocket s false
      (stopLocalServer p.1, p.2)
  | SocketState.BoundState | SocketState.ListeningState => (s, [])

/-- Embeds `processConnectionFailure(socket_error)`: switch on the socket state; the
remaining states carry `Q_ASSERT(false)` and do nothing. -/
def processConnectionFailure (s : TunnelState) (socket_error : Bool) :
    TunnelState × List TunnelEvent :=
  match s.remote_socket_state with
  | SocketState.HostLookupState | SocketState.ConnectingState =>
      let p := disconnectRemoteSocket s false
      let s2 := stopLocalServer p.1
      (s2, p.2 ++
        (if !socket_error then
          [TunnelEvent.channelError "Remote connect attempt timed out"]
         else []) ++ [TunnelEvent.channelOpened false 0])
  | SocketState.ClosingState =>
      let p := disconnectRemoteSocket s false
      let s2 := stopLocalServer p.1
      (s2, p.2 ++
        (if !socket_error then
          [TunnelEvent.channelError "Remote disconnect attempt timed out, aborting"]
         else []) ++ [TunnelEvent.channelClosed true])
  | _ => (s, [])

/-- Embeds `processConnectionTimeout()`: the timer slot reports a pure timeout. -/
def processConnectionTimeout (s : TunnelState) : TunnelState × List TunnelEvent :=
  processConnectionFailure s false

/-- Embeds `processRemoteSocketError()`: emit the descriptive error, then treat as a
connection failure preceded by a socket error. -/
def processRemoteSocketError (s : TunnelState) : TunnelState × List TunnelEvent :=
  let p := processConnectionFailure s true
  (p.1, TunnelEvent.channelError ("Remote connection error: " ++ s.remote_error_string) :: p.2)

/-- Result of `syncStartWrappedOperation()`: either it ran to completion, or
it is blocked inside `wrapped_operation_semaphore.acquire()` (the carried
state is the state at the blocking point). -/
inductive SyncStartResult where
  | started (s : TunnelState)
  | blocked (s : TunnelState)
deriving DecidableEq, Repr

/-- Embeds `syncStartWrappedOperation()`: clear the timed-out flag, acquire the
occupancy token (blocking while the counter is zero), then arm the operation
timer unless disabled. -/
def syncStartWrappedOperation (s : TunnelState) : SyncStartResult :=
  let s1 := { s with wrapped_operation_timed_out := false }
  if s1.wrapped_operation_semaphore = 0 then
    SyncStartResult.blocked s1
  else
    let s2 := { s1 with
      wrapped_operation_semaphore := s1.wrapped_operation_semaphore - 1 }
    SyncStartResult.started
      (if s2.wrapped_operation_timeout_ms ≠ -1 then
        { s2 with wrapped_operation_timer_active := true }
       else s2)

/-- State carried by a `SyncStartResult`. -/
def syncStartState : SyncStartResult → TunnelState
  | SyncStartResult.started s => s
  | SyncStartResult.blocked s => s

/-- Embeds `asyncStopWrappedOperation()`: post a queued stop of the operation timer
(unless disabled) and release the occupancy token. -/
def asyncStopWrappedOperation (s : TunnelState) : TunnelState :=
  let s1 := if s.wrapped_operation_timeout_ms ≠ -1 then
              { s with wrapped_operation_timer_active := false }
            else s
  { s1 with wrapped_operation_semaphore := s1.wrapped_operation_semaphore + 1 }

/-- Embeds `isWrappedOperationTimedOut()`. -/
def isWrappedOperationTimedOut (s : TunnelState) : Bool :=
  s.wrapped_operation_timed_out

/-- Result of `processWrappedOperationTimeout()`: done, or blocked on the
re-acquire of the occupancy token while the in-flight call still holds it. -/
inductive TimeoutFireResult where
  | done (s : TunnelState) (evs : List TunnelEvent)
  | waitingOnSemaphore (s : TunnelState) (evs : List TunnelEvent)
deriving DecidableEq, Repr

/-- Embeds `processWrappedOperationTimeout()`: set the timed-out flag; return unless
the remote socket is connected; otherwise abort the channel, then
acquire-and-release the occupancy token (blocking until the in-flight call
`end()` releases it) and emit `channelClosed(true)`. -/
def processWrappedOperationTimeout (s : TunnelState) : TimeoutFireResult :=
  let s1 := { s with wrapped_operation_timed_out := true }
  if s1.remote_socket_state ≠ SocketState.ConnectedState then
    TimeoutFireResult.done s1 []
  else
    let p := abortChannel s1
    if p.1.wrapped_operation_semaphore = 0 then
      TimeoutFireResult.waitingOnSemaphore p.1 p.2
    else
      let s2 := { p.1 with
        wrapped_operation_semaphore := p.1.wrapped_operation_semaphore - 1 }
      TimeoutFireResult.done
        { s2 with wrapped_operation_semaphore := s2.wrapped_operation_semaphore + 1 }
        (p.2 ++ [TunnelEvent.channelClosed true])

/-- Resumption of a blocked `processWrappedOperationTimeout()` once a release
has made the semaphore counter non-zero: the pending `acquire()` completes,
the matching `release()` follows, and `channelClosed(true)` is emitted. -/
def resumeWrappedOperationTimeout (s : TunnelState) :
    TunnelState × List TunnelEvent :=
  let s1 := { s with
    wrapped_operation_semaphore := s.wrapped_operation_semaphore - 1 }
  ({ s1 with wrapped_operation_semaphore := s1.wrapped_operation_semaphore + 1 },
   [TunnelEvent.channelClosed true])

/-! ### Byte relay (`DataPump`)

`transferDataFromSocketToSocket` only touches the two `QTcpSocket` buffers,
so it is embedded over a dedicated socket-buffer model: `read_buf` is the
byte sequence `readAll()` would currently return (drained by the call) and
`written` accumulates, in order, every byte passed to `write()` (the code
asserts the write is all-or-nothing, and a buffered `QTcpSocket::write`
accepts everything). -/

/-- Buffer view of one `QTcpSocket` used by the relay. -/
structure ByteSocket where
  read_buf : List Nat
  written : List Nat
deriving DecidableEq, Repr

/-- Embeds `transferDataFromSocketToSocket(src, dest)`: `readAll()` the source,
return without writing when nothing was available, else write exactly the
read bytes to the destination. -/
def transferDataFromSocketToSocket (src dest : ByteSocket) :
    ByteSocket × ByteSocket :=
  let data := src.read_buf
  let src1 : ByteSocket := { src with read_buf := [] }
  if data.isEmpty then (src1, dest)
  else (src1, { dest with written := dest.written ++ data })

/-- Relay-side view of the tunnel: the remote socket and the (possibly
absent, i.e. null) accepted local relay peer. -/
structure RelayState where
  remote : ByteSocket
  local_socket : Option ByteSocket
deriving DecidableEq, Repr

/-- Embeds `processRemoteSocketReadyRead()`: nothing when no relay peer exists yet,
else pump remote → local. -/
def processRemoteSocketReadyRead (rs : RelayState) : RelayState :=
  match rs.local_socket with
  | none => rs
  | some ls =>
      let p := transferDataFromSocketToSocket rs.remote ls
      { remote := p.1, local_socket := some p.2 }

/-- Embeds `processLocalSocketReadyRead()`: nothing when no relay peer exists,
else pump local → remote. -/
def processLocalSocketReadyRead (rs : RelayState) : RelayState :=
  match rs.local_socket with
  | none => rs
  | some ls =>
      let p := transferDataFromSocketToSocket ls rs.remote
      { remote := p.2, local_socket := some p.1 }

/-- A run of readiness events on one direction: each chunk arrives on the
source socket and the pump is triggered on it. -/
def pumpAll (chunks : List (List Nat)) (src dest : ByteSocket) :
    ByteSocket × ByteSocket :=
  match chunks with
  | [] => (src, dest)
  | c :: rest =>
      let src1 : ByteSocket := { src with read_buf := src.read_buf ++ c }
      let p := transferDataFromSocketToSocket src1 dest
      pumpAll rest p.1 p.2

/-! ### Facade (`RemoteDBusConnection`) -/

/-- The fields of a `QDBusError` the facade reads. -/
structure DBusErrorInfo where
  valid : Bool
  name : String
  message : String
deriving DecidableEq, Repr

/-- The observable part of the `QDBusConnection` the facade binds
(`ref`): whether `isConnected()` holds and its `lastError()`. -/
structure DBusRef where
  connected : Bool
  last_error : DBusErrorInfo
deriving DecidableEq, Repr

/-- Member state of `RemoteDBusConnection` relevant to the claims:
`ref` is the protocol-client binding, null ⇔ `none`. -/
structure FacadeState where
  ref : Option DBusRef
deriving DecidableEq, Repr

/-- Caller-visible signals of `RemoteDBusConnection`, in emission order. -/
inductive ConnEvent where
  | connectionOpened (success : Bool)
  | connectionError (message : String)
  | connectionClosed
deriving DecidableEq, Repr

/-- Embeds `formatDBusErrorDetails(error)`. -/
def formatDBusErrorDetails (e : DBusErrorInfo) : String :=
  if e.valid then
    "error:\nName: " ++ e.name ++ "\nMessage: " ++ e.message
  else "no error"

/-- Embeds `dropNativeDBusConnection()`: disconnect the named bus connection and
null the binding (no-op when already null). -/
def dropNativeDBusConnection (f : FacadeState) : FacadeState :=
  match f.ref with
  | none => f
  | some _ => { f with ref := none }

/-- Embeds `processTunnelChannelOpened(success, local_port)`.  `newRef` models the
`QDBusConnection` produced by `connectToBus` against the relay address.  The
returned `Bool` records whether `abortChannel` was queued to the tunnel. -/
def processTunnelChannelOpened (f : FacadeState) (success : Bool)
    (newRef : DBusRef) : FacadeState × List ConnEvent × Bool :=
  if success then
    let f1 : FacadeState := { f with ref := some newRef }
    if newRef.connected then
      (f1, [ConnEvent.connectionOpened true], false)
    else
      (dropNativeDBusConnection f1,
       [ConnEvent.connectionError
          ("D-Bus connection failed with " ++ formatDBusErrorDetails newRef.last_error),
        ConnEvent.connectionOpened false], true)
  else
    (f, [ConnEvent.connectionOpened false], false)

/-- Embeds `processTunnelChannelClosed(success)`: returns at once on `false`;
otherwise drops the binding, then emits `connectionClosed()`. -/
def processTunnelChannelClosed (f : FacadeState) (success : Bool) :
    FacadeState × List ConnEvent :=
  if !success then (f, [])
  else (dropNativeDBusConnection f, [ConnEvent.connectionClosed])

/-- Embeds `executeWrappedOperation(operation)`.  The blocking `operation()` body is
modelled by its boolean result `opSuccess` together with `env`, the effect
the concurrently running I/O thread (in particular
`processWrappedOperationTimeout`) has on the tunnel state while the body is
in flight.  The result is `none` when `syncStartWrappedOperation` blocks on
the occupancy token (the call has not returned yet); otherwise it is the
return value, the tunnel state after `asyncStopWrappedOperation`, and the
emitted facade events. -/
def executeWrappedOperation (f : FacadeState) (s : TunnelState)
    (opSuccess : Bool) (env : TunnelState → TunnelState) :
    Option (Bool × TunnelState × List ConnEvent) :=
  match f.ref with
  | none => some (false, s, [])
  | some r =>
    if !r.connected then some (false, s, [])
    else
      match syncStartWrappedOperation s with
      | SyncStartResult.blocked _ => none
      | SyncStartResult.started s1 =>
          let s2 := env s1
          let evs : List ConnEvent :=
            if !opSuccess then
              [ConnEvent.connectionError
                (if !(isWrappedOperationTimedOut s2) then
                  "D-Bus operation failed with " ++ formatDBusErrorDetails r.last_error
                 else "D-Bus operation timed out")]
            else []
          some (opSuccess, asyncStopWrappedOperation s2, evs)

/-! ### Concrete states used to instantiate the theorems -/

/-- A tunnel state with both timeouts disabled and the token free. -/
def sampleDisabled : TunnelState :=
  { connection_timeout_ms := -1
    wrapped_operation_timeout_ms := -1
    wrapped_operation_semaphore := 1
    wrapped_operation_timed_out := false
    remote_socket_state := SocketState.ConnectedState
    remote_pending_writes := false
    remote_error_string := ""
    local_socket := true
    local_server_listening := true
    local_server_port := 4321
    connection_timer_active := false
    wrapped_operation_timer_active := false
    os_bind_ok := true }

/-- A connected tunnel state with an operation in flight (token held) and
finite timeouts. -/
def sampleConnectedBusy : TunnelState :=
  { connection_timeout_ms := 100
    wrapped_operation_timeout_ms := 50
    wrapped_operation_semaphore := 0
    wrapped_operation_timed_out := false
    remote_socket_state := SocketState.ConnectedState
    remote_pending_writes := true
    remote_error_string := ""
    local_socket := true
    local_server_listening := true
    local_server_port := 4321
    connection_timer_active := false
    wrapped_operation_timer_active := true
    os_bind_ok := true }

/-- An idle tunnel state whose local server bind would be refused by the OS. -/
def sampleIdleBindFail : TunnelState :=
  { connection_timeout_ms := 100
    wrapped_operation_timeout_ms := -1
    wrapped_operation_semaphore := 1
    wrapped_operation_timed_out := false
    remote_socket_state := SocketState.UnconnectedState
    remote_pending_writes := false
    remote_error_string := ""
    local_socket := false
    local_server_listening := false
    local_server_port := 0
    connection_timer_active := false
    wrapped_operation_timer_active := false
    os_bind_ok := false }

/-- A tunnel state in the middle of a dial (not idle, listener up). -/
def sampleConnecting : TunnelState :=
  { connection_timeout_ms := 100
    wrapped_operation_timeout_ms := -1
    wrapped_operation_semaphore := 1
    wrapped_operation_timed_out := false
    remote_socket_state := SocketState.ConnectingState
    remote_pending_writes := false
    remote_error_string := ""
    local_socket := false
    local_server_listening := true
    local_server_port := 4321
    connection_timer_active := true
    wrapped_operation_timer_active := false
    os_bind_ok := true }

/-- A tunnel state with a graceful disconnect in flight. -/
def sampleClosing : TunnelState :=
  { connection_timeout_ms := 100
    wrapped_operation_timeout_ms := -1
    wrapped_operation_semaphore := 1
    wrapped_operation_timed_out := false
    remote_socket_state := SocketState.ClosingState
    remote_pending_writes := true
    remote_error_string := ""
    local_socket := true
    local_server_listening := true
    local_server_port := 4321
    connection_timer_active := true
    wrapped_operation_timer_active := false
    os_bind_ok := true }

/-- A connected protocol-client binding with no error. -/
def sampleRef : DBusRef :=
  { connected := true
    last_error := { valid := false, name := "", message := "" } }

/-- A failed protocol-client binding carrying a D-Bus error. -/
def sampleBadRef : DBusRef :=
  { connected := false
    last_error := { valid := true, name := "org.freedesktop.DBus.Error.NoServer"
                    message := "Failed to connect" } }

/-! ### Claims -/

/-- C8: a timer deadline is armed only when its configured timeout is not the
disabled sentinel `-1`: with `connection_timeout_ms = -1`,
`startConnectionTimer` is the identity; with
`wrapped_operation_timeout_ms = -1`, `syncStartWrappedOperation` leaves the
operation timer exactly as it was; conversely a non-sentinel value arms the
respective timer. -/
theorem disabled_sentinel_never_arms_timers (s : TunnelState) :
    (s.connection_timeout_ms = -1 → startConnectionTimer s = s)
    ∧ (s.connection_timeout_ms ≠ -1 →
        (startConnectionTimer s).connection_timer_active = true)
    ∧ (s.wrapped_operation_timeout_ms = -1 →
        (syncStartState (syncStartWrappedOperation s)).wrapped_operation_timer_active
          = s.wrapped_operation_timer_active)
    ∧ (s.wrapped_operation_timeout_ms ≠ -1 → s.wrapped_operation_semaphore ≠ 0 →
        (syncStartState (syncStartWrappedOperation s)).wrapped_operation_timer_active
          = true) := by
  refine ⟨fun h => by simp [startConnectionTimer, h],
          fun h => by simp [startConnectionTimer, h],
          fun h => ?_, fun h hs => ?_⟩
  · by_cases hz : s.wrapped_operation_semaphore = 0 <;>
      simp [syncStartWrappedOperation, syncStartState, h, hz]
  · by_cases hz : s.wrapped_operation_semaphore = 0
    · exact absurd hz hs
    · simp [syncStartWrappedOperation, syncStartState, h, hz]

/-- Witness for C8 at a concrete configuration with both sentinels set and,
separately, with finite timeouts. -/
theorem disabled_sentinel_never_arms_timers_witness :
    (startConnectionTimer sampleDisabled = sampleDisabled)
    ∧ ((syncStartState (syncStartWrappedOperation sampleDisabled)).wrapped_operation_timer_active
        = sampleDisabled.wrapped_operation_timer_active)
    ∧ ((startConnectionTimer sampleConnecting).connection_timer_active = true) :=
  ⟨(disabled_sentinel_never_arms_timers sampleDisabled).1 (by decide),
   (disabled_sentinel_never_arms_timers sampleDisabled).2.2.1 (by decide),
   (disabled_sentinel_never_arms_timers sampleConnecting).2.1 (by decide)⟩

/-- Helper for C9: over a run of arriving chunks, the bytes delivered to the
destination plus the residue still readable on the source are exactly the
initial bytes followed by the chunks, in order. -/
theorem pumpAll_written (chunks : List (List Nat)) (src dest : ByteSocket) :
    (pumpAll chunks src dest).2.written ++ (pumpAll chunks src dest).1.read_buf
      = dest.written ++ src.read_buf ++ chunks.flatten := by
  induction chunks generalizing src dest with
  | nil => simp [pumpAll]
  | cons c rest ih =>
      by_cases hvoid : (src.read_buf ++ c).isEmpty
      · simp only [List.isEmpty_iff, List.append_eq_nil] at hvoid
        simp [pumpAll, transferDataFromSocketToSocket, ih, hvoid.1, hvoid.2]
      · simp [pumpAll, transferDataFromSocketToSocket, hvoid, ih,
              List.append_assoc]

/-- C9: the byte relay is transparent and lossless — a pump event drains the
ready socket and appends exactly the drained byte sequence, unmodified and in
order, to the opposite socket, writing nothing when nothing was available;
over any run of arriving chunks the destination receives their concatenation
in order; remote readiness with no relay peer transfers nothing. -/
theorem relay_transparent :
    (∀ src dest : ByteSocket,
       (transferDataFromSocketToSocket src dest).1.read_buf = []
       ∧ (transferDataFromSocketToSocket src dest).2.written
           = dest.written ++ src.read_buf
       ∧ (transferDataFromSocketToSocket src dest).2.read_buf = dest.read_buf
       ∧ (src.read_buf = [] → (transferDataFromSocketToSocket src dest).2 = dest))
    ∧ (∀ (chunks : List (List Nat)) (src dest : ByteSocket),
        (pumpAll chunks src dest).2.written ++ (pumpAll chunks src dest).1.read_buf
          = dest.written ++ src.read_buf ++ chunks.flatten)
    ∧ (∀ rs : RelayState, rs.local_socket = none →
        processRemoteSocketReadyRead rs = rs) := by
  refine ⟨fun src dest => ?_, pumpAll_written, fun rs h => ?_⟩
  · by_cases hvoid : src.read_buf.isEmpty
    · simp only [List.isEmpty_iff] at hvoid
      simp [transferDataFromSocketToSocket, hvoid]
    · constructor
      · simp [transferDataFromSocketToSocket, hvoid]
      · refine ⟨by simp [transferDataFromSocketToSocket, hvoid],
                by simp [transferDataFromSocketToSocket, hvoid], fun he => ?_⟩
        simp [List.isEmpty_iff, he] at hvoid
  · simp [processRemoteSocketReadyRead, h]

/-- Witness for C9 at concrete buffers and a peerless relay. -/
theorem relay_transparent_witness :
    ((transferDataFromSocketToSocket { read_buf := [], written := [7] }
        { read_buf := [1], written := [2] }).2
      = { read_buf := [1], written := [2] })
    ∧ ((pumpAll [[1, 2], [], [3]] { read_buf := [0], written := [] }
          { read_buf := [], written := [9] }).2.written
        ++ (pumpAll [[1, 2], [], [3]] { read_buf := [0], written := [] }
          { read_buf := [], written := [9] }).1.read_buf = [9, 0, 1, 2, 3])
    ∧ (processRemoteSocketReadyRead
         { remote := { read_buf := [5], written := [] }, local_socket := none }
       = { remote := { read_buf := [5], written := [] }, local_socket := none }) :=
  ⟨(relay_transparent.1 { read_buf := [], written := [7] }
      { read_buf := [1], written := [2] }).2.2.2 (by decide),
   by
    have h := relay_transparent.2.1 [[1, 2], [], [3]]
      { read_buf := [0], written := [] } { read_buf := [], written := [9] }
    simpa using h,
   relay_transparent.2.2
     { remote := { read_buf := [5], written := [] }, local_socket := none }
     (by decide)⟩

/-- C10: the facade handler for `channelClosed(false)` returns without
emitting any caller-visible signal and without touching the binding;
`connectionClosed()` is emitted only for `channelClosed(true)`. -/
theorem channelClosed_false_is_noop :
    (∀ f : FacadeState, processTunnelChannelClosed f false = (f, []))
    ∧ (∀ (f : FacadeState) (success : Bool),
        ConnEvent.connectionClosed ∈ (processTunnelChannelClosed f success).2 →
        success = true) := by
  constructor
  · intro f
    simp [processTunnelChannelClosed]
  · intro f success h
    cases success with
    | false => simp [processTunnelChannelClosed] at h
    | true => rfl

/-- Witness for C10 at a concrete facade state holding a binding. -/
theorem channelClosed_false_is_noop_witness :
    (processTunnelChannelClosed { ref := some sampleRef } false
      = ({ ref := some sampleRef }, []))
    ∧ (true = true) :=
  ⟨channelClosed_false_is_noop.1 { ref := some sampleRef },
   channelClosed_false_is_noop.2 { ref := some sampleRef } true (by decide)⟩

/-- C2 (code bug): `openChannel` is missing early returns.  Dialled from idle
with a failing listener bind, it emits the internal error and
`channelOpened(false)` but then still dials the remote host (socket leaves
`UnconnectedState`) and arms the connection timer.  Called while not idle, it
emits `channelOpened(false)` and then continues with further side effects (a
second failure report, since the listener is already up). -/
theorem openChannel_missing_returns :
    ((openChannel sampleIdleBindFail).2
      = [TunnelEvent.channelError "Internal error: failed to start local server",
         TunnelEvent.channelOpened false 0]
     ∧ (openChannel sampleIdleBindFail).1.remote_socket_state
         = SocketState.HostLookupState
     ∧ (openChannel sampleIdleBindFail).1.connection_timer_active = true)
    ∧ ((openChannel sampleConnecting).2
      = [TunnelEvent.channelOpened false 0,
         TunnelEvent.channelError "Internal error: failed to start local server",
         TunnelEvent.channelOpened false 0]) := by
  decide

/-- C3 counterexample: from `ClosingState` (which is not `Idle`),
`abortChannel` is a no-op: the remote socket is not severed, the listener
and relay peer survive, and the tunnel does not end in `Idle` — refuting
"hard teardown from any state except Idle, always leaves the tunnel in
Idle". -/
theorem abortChannel_closing_is_noop :
    abortChannel sampleClosing = (sampleClosing, [])
    ∧ sampleClosing.remote_socket_state ≠ SocketState.UnconnectedState
    ∧ sampleClosing.local_server_listening = true
    ∧ sampleClosing.local_socket = true := by
  decide

/-- C3 amended: `abortChannel` is an idempotent, synchronous hard teardown
from any state except `Idle` and `Closing`: from a dialling or connected
state it severs the remote socket without flushing, stops the listener and
relay peer, and leaves the tunnel in `Idle`; from `Idle` or `Closing` it is
a no-op; it never emits events, and a repeated invocation changes nothing
further. -/
theorem abortChannel_teardown_idempotent (s : TunnelState) :
    (s.remote_socket_state = SocketState.HostLookupState
      ∨ s.remote_socket_state = SocketState.ConnectingState
      ∨ s.remote_socket_state = SocketState.ConnectedState →
      abortChannel s =
        ({ s with remote_socket_state := SocketState.UnconnectedState,
                  remote_pending_writes := false,
                  connection_timer_active := false,
                  local_server_listening := false,
                  local_socket := false }, []))
    ∧ (s.remote_socket_state = SocketState.UnconnectedState
        ∨ s.remote_socket_state = SocketState.ClosingState →
        abortChannel s = (s, []))
    ∧ (abortChannel s).2 = []
    ∧ abortChannel (abortChannel s).1 = ((abortChannel s).1, []) := by
  refine ⟨fun h => ?_, fun h => ?_, ?_, ?_⟩
  · rcases h with h | h | h <;>
      simp [abortChannel, disconnectRemoteSocket, stopLocalServer, h]
  · rcases h with h | h <;> simp [abortChannel, h]
  · rcases hs : s.remote_socket_state <;>
      simp [abortChannel, disconnectRemoteSocket, stopLocalServer, hs]
  · rcases hs : s.remote_socket_state <;>
      simp [abortChannel, disconnectRemoteSocket, stopLocalServer, hs]

/-- Witness for C3 (amended) at a concrete connected state and a concrete
closing state. -/
theorem abortChannel_teardown_idempotent_witness :
    (abortChannel sampleDisabled =
      ({ sampleDisabled with
          remote_socket_state := SocketState.UnconnectedState,
          remote_pending_writes := false,
          connection_timer_active := false,
          local_server_listening := false,
          local_socket := false }, []))
    ∧ abortChannel sampleClosing = (sampleClosing, []) :=
  ⟨(abortChannel_teardown_idempotent sampleDisabled).1 (by decide),
   (abortChannel_teardown_idempotent sampleClosing).2.1 (by decide)⟩

/-- C4: `closeChannel` is exactly state-dependent — `channelClosed(false)`
from `Idle`; hard abort of dial, listener and peer plus `channelClosed(true)`
from `HostLookupState`/`ConnectingState`; from `ConnectedState` (with the
graceful disconnect left in flight by unflushed data) a transition to
`ClosingState` arming the disconnect timer exactly when configured, touching
neither listener nor relay peer and emitting nothing; a no-op from
`ClosingState`.  Teardown of listener and peer is what the later
`processRemoteSocketDisconnected` slot performs. -/
theorem closeChannel_per_state (s : TunnelState) :
    (s.remote_socket_state = SocketState.UnconnectedState →
       closeChannel s = (s, [TunnelEvent.channelClosed false]))
    ∧ (s.remote_socket_state = SocketState.HostLookupState
        ∨ s.remote_socket_state = SocketState.ConnectingState →
       closeChannel s =
         ({ s with remote_socket_state := SocketState.UnconnectedState,
                   remote_pending_writes := false,
                   connection_timer_active := false,
                   local_server_listening := false,
                   local_socket := false }, [TunnelEvent.channelClosed true]))
    ∧ (s.remote_socket_state = SocketState.ConnectedState →
        s.remote_pending_writes = true →
       closeChannel s =
         (startConnectionTimer
            { s with remote_socket_state := SocketState.ClosingState,
                     connection_timer_active := false }, [])
       ∧ (closeChannel s).1.remote_socket_state = SocketState.ClosingState
       ∧ (closeChannel s).1.local_server_listening = s.local_server_listening
       ∧ (closeChannel s).1.local_socket = s.local_socket
       ∧ ((closeChannel s).1.connection_timer_active = true
            ↔ s.connection_timeout_ms ≠ -1))
    ∧ (s.remote_socket_state = SocketState.ClosingState →
        closeChannel s = (s, []))
    ∧ (∀ u : TunnelState, processRemoteSocketDisconnected u =
         ({ u with connection_timer_active := false,
                   local_server_listening := false,
                   local_socket := false }, [TunnelEvent.channelClosed true])) := by
  refine ⟨fun h => by simp [closeChannel, h], fun h => ?_,
          fun h hp => ?_, fun h => by simp [closeChannel, h], fun u => ?_⟩
  · rcases h with h | h <;>
      simp [closeChannel, disconnectRemoteSocket, stopLocalServer, h]
  · have hcc : closeChannel s =
        (startConnectionTimer
          { s with remote_socket_state := SocketState.ClosingState,
                   connection_timer_active := false }, []) := by
      simp [closeChannel, disconnectRemoteSocket, socketDisconnectFromHost,
            h, hp]
    refine ⟨hcc, ?_, ?_, ?_, ?_⟩ <;>
      by_cases ht : s.connection_timeout_ms = -1 <;>
        simp [hcc, startConnectionTimer, ht]
  · simp [processRemoteSocketDisconnected, stopLocalServer]

/-- Witness for C4 at concrete states in each of the four socket states. -/
theorem closeChannel_per_state_witness :
    (closeChannel sampleIdleBindFail
      = (sampleIdleBindFail, [TunnelEvent.channelClosed false]))
    ∧ (closeChannel sampleConnecting =
        ({ sampleConnecting with
            remote_socket_state := SocketState.UnconnectedState,
            remote_pending_writes := false,
            connection_timer_active := false,
            local_server_listening := false,
            local_socket := false }, [TunnelEvent.channelClosed true]))
    ∧ ((closeChannel sampleConnectedBusy).1.remote_socket_state
        = SocketState.ClosingState)
    ∧ (closeChannel sampleClosing = (sampleClosing, [])) :=
  ⟨(closeChannel_per_state sampleIdleBindFail).1 (by decide),
   (closeChannel_per_state sampleConnecting).2.1 (Or.inr (by decide)),
   ((closeChannel_per_state sampleConnectedBusy).2.2.1 (by decide)
      (by decide)).2.1,
   (closeChannel_per_state sampleClosing).2.2.2.1 (by decide)⟩

/-- C5: `processConnectionFailure` while dialling hard-aborts the dial and
listener, emits the connect-timeout error exactly when the failure was a
pure timeout (no preceding socket error), and always ends with
`channelOpened(false)`; while `ClosingState` it does the same with the
disconnect-timeout message and `channelClosed(true)`; a socket error is
reported by `processRemoteSocketError` with its descriptive message first
and `socket_error = true` passed on. -/
theorem connectionFailure_per_state (s : TunnelState) (socket_error : Bool) :
    (s.remote_socket_state = SocketState.HostLookupState
      ∨ s.remote_socket_state = SocketState.ConnectingState →
      processConnectionFailure s socket_error =
        ({ s with remote_socket_state := SocketState.UnconnectedState,
                  remote_pending_writes := false,
                  connection_timer_active := false,
                  local_server_listening := false,
                  local_socket := false },
         (if socket_error then []
          else [TunnelEvent.channelError "Remote connect attempt timed out"])
           ++ [TunnelEvent.channelOpened false 0]))
    ∧ (s.remote_socket_state = SocketState.ClosingState →
      processConnectionFailure s socket_error =
        ({ s with remote_socket_state := SocketState.UnconnectedState,
                  remote_pending_writes := false,
                  connection_timer_active := false,
                  local_server_listening := false,
                  local_socket := false },
         (if socket_error then []
          else [TunnelEvent.channelError
                  "Remote disconnect attempt timed out, aborting"])
           ++ [TunnelEvent.channelClosed true]))
    ∧ ((processRemoteSocketError s).2
        = TunnelEvent.channelError
            ("Remote connection error: " ++ s.remote_error_string)
            :: (processConnectionFailure s true).2) := by
  refine ⟨fun h => ?_, fun h => ?_, ?_⟩
  · rcases h with h | h <;> cases socket_error <;>
      simp [processConnectionFailure, disconnectRemoteSocket, stopLocalServer, h]
  · cases socket_error <;>
      simp [processConnectionFailure, disconnectRemoteSocket, stopLocalServer, h]
  · simp [processRemoteSocketError]

/-- Witness for C5: a pure timeout while dialling (error then
`opened(false)`), a socket-error-preceded failure while dialling (no timeout
message), and a pure timeout while closing. -/
theorem connectionFailure_per_state_witness :
    (processConnectionFailure sampleConnecting false).2
      = [TunnelEvent.channelError "Remote connect attempt timed out",
         TunnelEvent.channelOpened false 0]
    ∧ (processConnectionFailure sampleConnecting true).2
        = [TunnelEvent.channelOpened false 0]
    ∧ (processConnectionFailure sampleClosing false).2
        = [TunnelEvent.channelError "Remote disconnect attempt timed out, aborting",
           TunnelEvent.channelClosed true] := by
  refine ⟨?_, ?_, ?_⟩
  · rw [(connectionFailure_per_state sampleConnecting false).1
          (Or.inr (by decide))]
    rfl
  · rw [(connectionFailure_per_state sampleConnecting true).1
          (Or.inr (by decide))]
    rfl
  · rw [(connectionFailure_per_state sampleClosing false).2.1 (by decide)]
    rfl

/-- C1: when the operation timer fires during an in-flight wrapped call
(token held, counter zero) with the remote socket still connected, the
handler sets the timed-out flag, hard-aborts the tunnel, and blocks on the
re-acquire of the occupancy token having emitted nothing yet; once the
matching release arrives, the resumed handler re-acquires and releases the
token (leaving its count unchanged) and emits exactly one
`channelClosed(true)`.  When the remote socket is not connected the handler
only sets the flag and emits nothing.  The flag stays readable through
`asyncStopWrappedOperation` and is cleared to `false` by
`syncStartWrappedOperation` before the token acquisition (so even a blocked
start has already cleared it). -/
theorem wrappedOperationTimeout_behavior (s : TunnelState)
    (hc : s.remote_socket_state = SocketState.ConnectedState)
    (hs : s.wrapped_operation_semaphore = 0) :
    (processWrappedOperationTimeout s =
      TimeoutFireResult.waitingOnSemaphore
        { s with wrapped_operation_timed_out := true,
                 remote_socket_state := SocketState.UnconnectedState,
                 remote_pending_writes := false,
                 connection_timer_active := false,
                 local_server_listening := false,
                 local_socket := false } [])
    ∧ (∀ t : TunnelState, 1 ≤ t.wrapped_operation_semaphore →
         resumeWrappedOperationTimeout t = (t, [TunnelEvent.channelClosed true]))
    ∧ (∀ u : TunnelState, u.remote_socket_state ≠ SocketState.ConnectedState →
         processWrappedOperationTimeout u =
           TimeoutFireResult.done { u with wrapped_operation_timed_out := true } [])
    ∧ (∀ u : TunnelState,
         isWrappedOperationTimedOut (asyncStopWrappedOperation u)
           = isWrappedOperationTimedOut u)
    ∧ (∀ u : TunnelState,
         isWrappedOperationTimedOut (syncStartState (syncStartWrappedOperation u))
           = false) := by
  refine ⟨?_, fun t ht => ?_, fun u hu => ?_, fun u => ?_, fun u => ?_⟩
  · simp [processWrappedOperationTimeout, abortChannel, disconnectRemoteSocket,
          stopLocalServer, hc, hs]
  · cases t
    simp only [resumeWrappedOperationTimeout, Prod.mk.injEq, and_true]
    simp_all
  · simp [processWrappedOperationTimeout, hu]
  · by_cases hz : u.wrapped_operation_timeout_ms = -1 <;>
      simp [asyncStopWrappedOperation, isWrappedOperationTimedOut, hz]
  · by_cases hz : u.wrapped_operation_semaphore = 0 <;>
      by_cases hw : u.wrapped_operation_timeout_ms = -1 <;>
        simp [syncStartWrappedOperation, syncStartState,
              isWrappedOperationTimedOut, hz, hw]

/-- Witness for C1 at the concrete busy connected state: the full
timeout-fires / end-releases / handler-resumes sequence. -/
theorem wrappedOperationTimeout_behavior_witness :
    (processWrappedOperationTimeout sampleConnectedBusy =
      TimeoutFireResult.waitingOnSemaphore
        { sampleConnectedBusy with
            wrapped_operation_timed_out := true,
            remote_socket_state := SocketState.UnconnectedState,
            remote_pending_writes := false,
            connection_timer_active := false,
            local_server_listening := false,
            local_socket := false } [])
    ∧ (resumeWrappedOperationTimeout sampleDisabled
        = (sampleDisabled, [TunnelEvent.channelClosed true])) :=
  ⟨(wrappedOperationTimeout_behavior sampleConnectedBusy (by decide)
      (by decide)).1,
   (wrappedOperationTimeout_behavior sampleConnectedBusy (by decide)
      (by decide)).2.1 sampleDisabled (by decide)⟩

/-- C6: `executeWrappedOperation` returns `false` at once — independent of
the operation body and with the tunnel state (hence the occupancy token)
untouched — when no binding exists or the binding is not connected;
otherwise it begins (clearing the flag, taking the token, arming the timer),
runs the body (during which the I/O context may act, modelled by `env`),
ends, and on failure emits exactly one error event whose message is the
timed-out message when the flag reads true and otherwise carries the
protocol-supplied D-Bus error description. -/
theorem executeWrappedOperation_behavior :
    (∀ (f : FacadeState) (s : TunnelState) (b : Bool)
       (env : TunnelState → TunnelState), f.ref = none →
        executeWrappedOperation f s b env = some (false, s, []))
    ∧ (∀ (f : FacadeState) (s : TunnelState) (b : Bool)
         (env : TunnelState → TunnelState) (r : DBusRef),
        f.ref = some r → r.connected = false →
        executeWrappedOperation f s b env = some (false, s, []))
    ∧ (∀ (f : FacadeState) (s : TunnelState) (env : TunnelState → TunnelState)
         (r : DBusRef),
        f.ref = some r → r.connected = true →
        s.wrapped_operation_semaphore ≠ 0 →
        executeWrappedOperation f s true env =
          some (true,
            asyncStopWrappedOperation
              (env (syncStartState (syncStartWrappedOperation s))), []))
    ∧ (∀ (f : FacadeState) (s : TunnelState) (env : TunnelState → TunnelState)
         (r : DBusRef),
        f.ref = some r → r.connected = true →
        s.wrapped_operation_semaphore ≠ 0 →
        executeWrappedOperation f s false env =
          some (false,
            asyncStopWrappedOperation
              (env (syncStartState (syncStartWrappedOperation s))),
            [ConnEvent.connectionError
              (if isWrappedOperationTimedOut
                   (env (syncStartState (syncStartWrappedOperation s))) then
                "D-Bus operation timed out"
               else
                "D-Bus operation failed with "
                  ++ formatDBusErrorDetails r.last_error)])) := by
  refine ⟨fun f s b env hf => ?_, fun f s b env r hf hr => ?_,
          fun f s env r hf hr hz => ?_, fun f s env r hf hr hz => ?_⟩
  · simp [executeWrappedOperation, hf]
  · simp [executeWrappedOperation, hf, hr]
  · simp [executeWrappedOperation, hf, hr, syncStartWrappedOperation,
          syncStartState, hz]
  · by_cases hto : isWrappedOperationTimedOut
        (env (syncStartState (syncStartWrappedOperation s))) <;>
      simp [executeWrappedOperation, hf, hr, syncStartWrappedOperation,
            syncStartState, hz, isWrappedOperationTimedOut] at hto ⊢ <;>
      simp [hto]

/-- Witness for C6: a call with no binding short-circuits; a failing call on
a connected binding with an idle environment reports the protocol error; a
failing call during which the timeout fired reports the timeout message. -/
theorem executeWrappedOperation_behavior_witness :
    (executeWrappedOperation { ref := none } sampleDisabled true id
      = some (false, sampleDisabled, []))
    ∧ (executeWrappedOperation { ref := some sampleBadRef } sampleDisabled
         true id = some (false, sampleDisabled, []))
    ∧ (executeWrappedOperation { ref := some sampleRef } sampleDisabled
         false (fun u => { u with wrapped_operation_timed_out := true })
       = some (false,
           asyncStopWrappedOperation
             ((fun u => { u with wrapped_operation_timed_out := true })
               (syncStartState (syncStartWrappedOperation sampleDisabled))),
           [ConnEvent.connectionError "D-Bus operation timed out"])) := by
  refine ⟨executeWrappedOperation_behavior.1 { ref := none } sampleDisabled
            true id rfl,
          executeWrappedOperation_behavior.2.1 { ref := some sampleBadRef }
            sampleDisabled true id sampleBadRef rfl (by decide), ?_⟩
  rw [executeWrappedOperation_behavior.2.2.2 { ref := some sampleRef }
        sampleDisabled (fun u => { u with wrapped_operation_timed_out := true })
        sampleRef rfl (by decide) (by decide)]
  rfl

/-- C7: the binding is torn down to null before the caller is notified — the
`channelClosed(true)` handler ends with a null binding and emits
`connectionClosed()` after the drop; when the tunnel reports success but the
constructed D-Bus connection is not connected, the handler drops the
binding, queues `abortChannel` to the tunnel, and emits the error followed
by `connectionOpened(false)`; the `channelOpened(false)` pass-through leaves
the (necessarily null, since a binding exists only once opening succeeded)
binding untouched and emits only `connectionOpened(false)`. -/
theorem binding_torn_down_before_notification :
    (∀ f : FacadeState,
       processTunnelChannelClosed f true =
         ({ ref := none }, [ConnEvent.connectionClosed]))
    ∧ (∀ (f : FacadeState) (r : DBusRef), r.connected = false →
        processTunnelChannelOpened f true r =
          ({ ref := none },
           [ConnEvent.connectionError
              ("D-Bus connection failed with "
                ++ formatDBusErrorDetails r.last_error),
            ConnEvent.connectionOpened false], true))
    ∧ (∀ (f : FacadeState) (r : DBusRef), f.ref = none →
        processTunnelChannelOpened f false r
          = (f, [ConnEvent.connectionOpened false], false)
        ∧ (processTunnelChannelOpened f false r).1.ref = none) := by
  refine ⟨fun f => ?_, fun f r hr => ?_, fun f r hf => ?_⟩
  · cases f with
    | mk fr => cases fr <;>
        simp [processTunnelChannelClosed, dropNativeDBusConnection]
  · simp [processTunnelChannelOpened, dropNativeDBusConnection, hr]
  · exact ⟨by simp [processTunnelChannelOpened],
           by simp [processTunnelChannelOpened, hf]⟩

/-- Witness for C7: a concrete close with a live binding nulls it before
`connectionClosed`; a concrete failed D-Bus construction nulls the binding,
requests abort, and reports the error with `connectionOpened(false)`. -/
theorem binding_torn_down_before_notification_witness :
    (processTunnelChannelClosed { ref := some sampleRef } true =
      ({ ref := none }, [ConnEvent.connectionClosed]))
    ∧ (processTunnelChannelOpened { ref := none } true sampleBadRef =
        ({ ref := none },
         [ConnEvent.connectionError
            ("D-Bus connection failed with error:\nName: org.freedesktop.DBus.Error.NoServer\nMessage: Failed to connect"),
          ConnEvent.connectionOpened false], true)) := by
  refine ⟨binding_torn_down_before_notification.1 { ref := some sampleRef }, ?_⟩
  rw [binding_torn_down_before_notification.2.1 { ref := none } sampleBadRef
        (by decide)]
  rfl

end QtExtra
